import Mathlib

/-!
Verification of the structured-agent-query subsystem of the
`fastapi_mcpagent` repository: a shallow embedding of the FastAPI
endpoints (`src/app.py`), the two pydantic-ai agents (`src/agent.py`,
`src/mcp_agent.py`) and the evaluation harness (`tests/evals.py`),
together with theorems settling the specification's claims.

Machine conventions: Python ints are `Int`, Python floats appearing only
at exactly representable values are `ℚ`, Python exceptions are the error
side of `Except`, HTTP results are a sum of a payload and a status-coded
error.
-/

namespace FastapiMcpAgent

/-- Python exceptions that the embedded code can raise. -/
inductive PyError where
  | assertionError
  | zeroDivisionError
  | runtimeError (msg : String)
deriving Repr, DecidableEq

/-- Result of an HTTP endpoint: a payload, or an HTTPException carrying a
status code and a detail message. -/
inductive HttpResult (α : Type) where
  | ok : α → HttpResult α
  | httpError : Nat → String → HttpResult α
deriving Repr, DecidableEq

/-! ## Structured response schemas (src/agent.py, src/mcp_agent.py) -/

/-- Embedding of the pydantic model `BotResponse` (src/agent.py):
`answer`, `reasoning`, optional `reference`, and
`confidence_percentage : Annotated[int, Field(ge=0, le=100)]`.
The record itself holds the raw field values; pydantic's validation on
construction is `mkBotResponse` below. -/
structure BotResponse where
  answer : String
  reasoning : String
  reference : Option String
  confidence_percentage : Int
deriving Repr, DecidableEq

/-- Pydantic validation performed when a `BotResponse` is constructed:
the `Field(ge=0, le=100)` bound on `confidence_percentage` must hold,
otherwise a `ValidationError` is raised (modelled as `none`). -/
def mkBotResponse (answer reasoning : String) (reference : Option String)
    (confidence_percentage : Int) : Option BotResponse :=
  if 0 ≤ confidence_percentage ∧ confidence_percentage ≤ 100 then
    some ⟨answer, reasoning, reference, confidence_percentage⟩
  else
    none

/-- Embedding of the pydantic model `MCPBotResponse` (src/mcp_agent.py):
`answer`, `reasoning`, `websites_accessed : list[str] = []`, and
`confidence_percentage : Annotated[int, Field(ge=0, le=100)]`. -/
structure MCPBotResponse where
  answer : String
  reasoning : String
  websites_accessed : List String
  confidence_percentage : Int
deriving Repr, DecidableEq

/-- Pydantic validation performed when an `MCPBotResponse` is
constructed: the `Field(ge=0, le=100)` bound on `confidence_percentage`
must hold, otherwise validation fails (modelled as `none`). -/
def mkMCPBotResponse (answer reasoning : String) (websites_accessed : List String)
    (confidence_percentage : Int) : Option MCPBotResponse :=
  if 0 ≤ confidence_percentage ∧ confidence_percentage ≤ 100 then
    some ⟨answer, reasoning, websites_accessed, confidence_percentage⟩
  else
    none

/-- Embedding of Python attribute assignment
`resp.confidence_percentage = v` on a `BotResponse`. Neither model sets
`model_config = ConfigDict(frozen=True)`, so pydantic's default applies:
attribute assignment on an existing instance succeeds, and (because
`validate_assignment` also defaults to off) the assigned value is not
re-validated against the field constraints. -/
def setConfidencePercentage (r : BotResponse) (v : Int) : BotResponse :=
  { r with confidence_percentage := v }

/-- Embedding of Python attribute assignment
`resp.confidence_percentage = v` on an `MCPBotResponse` (same pydantic
default-mutability as for `BotResponse`). -/
def setMCPConfidencePercentage (r : MCPBotResponse) (v : Int) : MCPBotResponse :=
  { r with confidence_percentage := v }

/-! ## Math endpoints (src/app.py) -/

/-- Embedding of the `divide` endpoint (src/app.py):
`result = numerator / denominator`. Python raises `ZeroDivisionError`
for a zero denominator, for float operands as well as ints; all values
the claims evaluate (10, 2, 1, 0, 5.0) are exactly representable, so
the arithmetic is modelled over `ℚ`. -/
def divide (numerator denominator : ℚ) : Except PyError ℚ :=
  if denominator = 0 then
    .error .zeroDivisionError
  else
    .ok (numerator / denominator)

/-- One iteration of the Python loop body `a, b = b, a + b`. -/
def fibStep : Nat × Nat → Nat × Nat :=
  fun p => (p.2, p.1 + p.2)

/-- Embedding of the `fibonacci` endpoint (src/app.py): negative input
raises `HTTPException(status_code=400, detail='Input must be a
non-negative integer')`; `n <= 1` returns `n`; otherwise the loop
`for _ in range(2, n + 1)` runs `(n + 1) - 2` times starting from
`a, b = 0, 1` and the endpoint returns `b`. -/
def fibonacci (n : Int) : HttpResult Int :=
  if n < 0 then
    .httpError 400 "Input must be a non-negative integer"
  else if n ≤ 1 then
    .ok n
  else
    .ok (((fibStep^[(n + 1 - 2).toNat]) (0, 1)).2 : Nat)

/-! ## Item CRUD (src/app.py) -/

/-- Embedding of the ORM row `Item` (src/app.py): integer primary key
`id`, `name`, `description`. -/
structure Item where
  id : Nat
  name : String
  description : String
deriving Repr, DecidableEq

/-- Embedding of the request body `ItemCreate` (src/app.py). -/
structure ItemCreate where
  name : String
  description : String
deriving Repr, DecidableEq

/-- The items table, in insertion order (the listing query has no
ORDER BY; SQLite returns rows in rowid order, which for this table is
insertion order). -/
abbrev ItemsDB := List Item

/-- The id SQLite assigns to a freshly inserted row of a table whose
primary key is an auto-assigned INTEGER: one more than the largest id in
the table (1 for an empty table). -/
def nextItemId (db : ItemsDB) : Nat :=
  (db.map Item.id).foldr max 0 + 1

/-- Embedding of the `create_item` endpoint (src/app.py): insert a row
built from the payload, commit, refresh (which populates the assigned
id), and return the stored record together with the new table state. -/
def create_item (db : ItemsDB) (item : ItemCreate) : Item × ItemsDB :=
  let db_item : Item := ⟨nextItemId db, item.name, item.description⟩
  (db_item, db ++ [db_item])

/-- Embedding of the `read_item` endpoint (src/app.py):
`db.query(Item).filter(Item.id == item_id).first()`, raising
`HTTPException(status_code=404, detail='Item not')` when no row
matches. -/
def read_item (db : ItemsDB) (item_id : Nat) : HttpResult Item :=
  match db.find? (fun it => it.id == item_id) with
  | some it => .ok it
  | none => .httpError 404 "Item not"

/-- Embedding of the `read_items` endpoint (src/app.py):
`db.query(Item).offset(skip).limit(limit).all()`. -/
def read_items (db : ItemsDB) (skip limit : Nat) : List Item :=
  (db.drop skip).take limit

/-! ## Environment, startup and the search agent (src/agent.py, src/app.py) -/

/-- The process environment after `load_dotenv`, restricted to the
variables the embedded code reads. -/
structure Env where
  tavily_api_key : Option String
  database_url : Option String
deriving Repr, DecidableEq

/-- Embedding of the configured pydantic-ai `Agent` value returned by
`build_agent` (src/agent.py): the model identifier and the Tavily
credential baked into its search tool. -/
structure AgentHandle where
  model : String
  tavilyKey : String
deriving Repr, DecidableEq

/-- Embedding of `build_agent` (src/agent.py): reads `TAVILY_API_KEY`
from the environment and runs `assert api_key is not None`, so a missing
key raises `AssertionError`; otherwise the agent is constructed with
model `openai:gpt-4.1` and the Tavily search tool. -/
def build_agent (env : Env) : Except PyError AgentHandle :=
  match env.tavily_api_key with
  | none => .error .assertionError
  | some k => .ok ⟨"openai:gpt-4.1", k⟩

/-- Application state established by importing `src/app.py`. -/
structure AppState where
  databaseUrl : String
deriving Repr, DecidableEq

/-- The complete list of `os.getenv` reads executed while the service
starts, i.e. at import time of `src/app.py` and of the modules it pulls
in: `src/agent.py` and `src/mcp_agent.py` run `load_dotenv` at module
level (which populates the environment, modelled by `Env` itself) and
read no variable; the only module-level `os.getenv` in the repository is
`os.getenv('DATABASE_URL', 'sqlite:///./test.db')` in `src/app.py`. The
sole `os.getenv('TAVILY_API_KEY')` sits inside the body of
`build_agent`, which no import-time code calls. -/
def startup_env_reads : List String :=
  ["DATABASE_URL"]

/-- Embedding of the import-time (startup) execution of `src/app.py`,
statement by statement: `logfire.configure` (no environment read),
`DATABASE_URL = os.getenv('DATABASE_URL', 'sqlite:///./test.db')`,
`create_engine` / `sessionmaker` / `declarative_base` /
`Base.metadata.create_all` and the logfire instrumentation calls (no
environment reads, no failure), then the pydantic models and route
declarations (definitions only, nothing executed). No import-time
statement reads or checks `TAVILY_API_KEY`; `build_agent` appears only
inside the `get_agent` dependency, which FastAPI resolves per
request. -/
def app_startup (env : Env) : Except PyError AppState :=
  let database_url := env.database_url.getD "sqlite:///./test.db"
  .ok ⟨database_url⟩

/-- Embedding of `get_agent` (src/app.py), the FastAPI dependency of the
`/agent/query` endpoint: it calls `build_agent()`. FastAPI resolves it
when a request to that endpoint arrives, i.e. once per call. -/
def get_agent (env : Env) : Except PyError AgentHandle :=
  build_agent env

/-- Embedding of `answer_question` (src/agent.py): awaits
`agent.run(user_prompt=question)` and returns `result.output`. The run
itself is the external LLM call; its outcome is the oracle
`runOutcome`. -/
def answer_question (_agent : AgentHandle)
    (runOutcome : Except PyError BotResponse) : Except PyError BotResponse :=
  match runOutcome with
  | .ok result => .ok result
  | .error e => .error e

/-- Embedding of one request to `POST /agent/query` (src/app.py),
dependency resolution included: FastAPI first resolves
`Depends(get_agent)` (per call); if that raises, the request fails with
that error and the handler body never runs; otherwise the handler calls
`answer_question` on the fresh agent. -/
def handle_agent_query (env : Env) (_question : String)
    (runOutcome : Except PyError BotResponse) : Except PyError BotResponse :=
  match get_agent env with
  | .error e => .error e
  | .ok agent => answer_question agent runOutcome

/-! ## Browser-automation agent lifecycle (src/mcp_agent.py)

`browser_mcp = MCPServerStdio('npx', args=['-Y', '@playwright/mcp@latest'])`
is created once at module import; the module-level `agent` lists it in
`mcp_servers`. The subprocess itself is spawned when
`agent.run_mcp_servers()` is entered and terminated when that scoped
block exits (the spec's own description of the adapter: scoped
acquisition, start on entry, guaranteed shutdown on exit, including on
error). The state below counts those events for one runtime instance. -/

/-- Observable state of the Playwright MCP subprocess belonging to the
single module-level agent: whether it is currently running and how many
times it has been started and stopped. -/
structure MCPState where
  serverRunning : Bool
  startCount : Nat
  stopCount : Nat
deriving Repr, DecidableEq

/-- State before any query: the module has been imported, `browser_mcp`
constructed, no subprocess spawned. -/
def initialMCPState : MCPState := ⟨false, 0, 0⟩

/-- Entry of `agent.run_mcp_servers()`: the stdio subprocess is
spawned. -/
def startServers (s : MCPState) : MCPState :=
  ⟨true, s.startCount + 1, s.stopCount⟩

/-- Exit of `agent.run_mcp_servers()`: the stdio subprocess is
terminated. -/
def stopServers (s : MCPState) : MCPState :=
  ⟨false, s.startCount, s.stopCount + 1⟩

/-- Embedding of `answer_mcp_question` (src/mcp_agent.py):
`async with agent.run_mcp_servers():` starts the servers on entry, then
`agent.run(user_prompt=question)` executes (its outcome — the external
LLM/browser interaction — is the oracle `runOutcome`), and the
`async with` guarantees the servers are stopped on exit, also when the
body raises. Returns the Python-level outcome and the subprocess state
after the call. -/
def answer_mcp_question (runOutcome : Except PyError MCPBotResponse)
    (s : MCPState) : Except PyError MCPBotResponse × MCPState :=
  let entered := startServers s
  match runOutcome with
  | .ok result => (.ok result, stopServers entered)
  | .error e => (.error e, stopServers entered)

/-! ## Evaluation harness (tests/evals.py) -/

/-- Embedding of `AgentQuery` (tests/evals.py and src/app.py). -/
structure AgentQuery where
  question : String
deriving Repr, DecidableEq

/-- A value stored in a `metadata` dict of the evaluation dataset. In
the repository the `expected_keywords` entry is always a list of
strings and the other entries (`difficulty`, `topic`) are strings. -/
inductive MetaValue where
  | str : String → MetaValue
  | strList : List String → MetaValue
deriving Repr, DecidableEq

/-- A `metadata` dict: association list from keys to values. -/
abbrev MetaDict := List (String × MetaValue)

/-- Embedding of `ctx.metadata.get('expected_keywords', [])`: look the
key up, defaulting to the empty list when it is absent (in the
repository the entry, when present, is always a list of strings; a
string-valued entry never occurs and is mapped to the default). -/
def metaGetKeywords (d : MetaDict) : List String :=
  match d.lookup "expected_keywords" with
  | some (.strList l) => l
  | some (.str _) => []
  | none => []

/-- Embedding of `EvaluatorContext` (pydantic_evals) as the evaluators
of tests/evals.py consume it: the case input, the agent output, and the
optional metadata dict. -/
structure EvaluatorContext where
  inputs : AgentQuery
  output : BotResponse
  metadata : Option MetaDict
deriving Repr, DecidableEq

/-- Characters of `hay` start with the characters of `needle`. -/
def charsStart : List Char → List Char → Bool
  | [], _ => true
  | _ :: _, [] => false
  | c :: cs, h :: hs => c == h && charsStart cs hs

/-- `needle` occurs as a contiguous run inside `hay` (on characters). -/
def charsContain : List Char → List Char → Bool
  | needle, [] => needle.isEmpty
  | needle, h :: hs => charsStart needle (h :: hs) || charsContain needle hs

/-- Embedding of the Python substring test `needle in hay`. -/
def strContains (hay needle : String) : Bool :=
  charsContain needle.data hay.data

/-- Embedding of Python's `str.lower()`: lowercase every character. -/
def strLower (s : String) : String :=
  ⟨s.data.map Char.toLower⟩

/-- Embedding of `ConfidenceEvaluator.evaluate` (tests/evals.py): score
`1.0` when `confidence_percentage >= min_confidence`, otherwise
`confidence_percentage / 100.0`. -/
def ConfidenceEvaluator.evaluate (min_confidence : Int)
    (ctx : EvaluatorContext) : ℚ :=
  if ctx.output.confidence_percentage ≥ min_confidence then
    1
  else
    (ctx.output.confidence_percentage : ℚ) / 100

/-- Embedding of `KeywordPresenceEvaluator.evaluate` (tests/evals.py):
`0.0` when `not ctx.metadata` (metadata absent, i.e. `None`, or an empty
— falsy — dict); `1.0` when `expected_keywords` is missing or empty;
otherwise the fraction of expected keywords whose lowercase form is a
substring of the lowercase answer. -/
def KeywordPresenceEvaluator.evaluate (ctx : EvaluatorContext) : ℚ :=
  match ctx.metadata with
  | none => 0
  | some d =>
    if d.isEmpty then
      0
    else
      let expected_keywords := metaGetKeywords d
      if expected_keywords.isEmpty then
        1
      else
        let answer_lower := strLower ctx.output.answer
        let found_keywords :=
          expected_keywords.filter (fun kw => strContains answer_lower (strLower kw))
        (found_keywords.length : ℚ) / (expected_keywords.length : ℚ)

/-! ## Theorems -/

/-- C1: every `BotResponse` or `MCPBotResponse` that passes pydantic
validation has `confidence_percentage` in the closed interval [0,100],
and attempting to construct one with `confidence_percentage` outside
this range fails validation instead of producing a value. -/
theorem confidence_percentage_bounds :
    (∀ a r ref c br, mkBotResponse a r ref c = some br →
       0 ≤ br.confidence_percentage ∧ br.confidence_percentage ≤ 100) ∧
    (∀ a r ref c, (c < 0 ∨ 100 < c) → mkBotResponse a r ref c = none) ∧
    (∀ a r ws c br, mkMCPBotResponse a r ws c = some br →
       0 ≤ br.confidence_percentage ∧ br.confidence_percentage ≤ 100) ∧
    (∀ a r ws c, (c < 0 ∨ 100 < c) → mkMCPBotResponse a r ws c = none) := by
  refine ⟨?_, ?_, ?_, ?_⟩
  · intro a r ref c br h
    unfold mkBotResponse at h
    split_ifs at h with hc
    · injection h with h
      subst h
      exact hc
  · intro a r ref c hc
    unfold mkBotResponse
    rw [if_neg (by omega)]
  · intro a r ws c br h
    unfold mkMCPBotResponse at h
    split_ifs at h with hc
    · injection h with h
      subst h
      exact hc
  · intro a r ws c hc
    unfold mkMCPBotResponse
    rw [if_neg (by omega)]

/-- C1 witness: a validated instance at confidence 75 is within bounds;
construction at 101 and at -1 fails. -/
theorem confidence_percentage_bounds_witness :
    (0 ≤ (⟨"a", "r", none, 75⟩ : BotResponse).confidence_percentage ∧
       (⟨"a", "r", none, 75⟩ : BotResponse).confidence_percentage ≤ 100) ∧
    mkBotResponse "a" "r" none 101 = none ∧
    mkMCPBotResponse "a" "r" [] (-1) = none :=
  ⟨confidence_percentage_bounds.1 "a" "r" none 75 ⟨"a", "r", none, 75⟩ (by decide),
   confidence_percentage_bounds.2.1 "a" "r" none 101 (Or.inr (by decide)),
   confidence_percentage_bounds.2.2.2 "a" "r" [] (-1) (Or.inl (by decide))⟩

/-- C4 counterexample: the response models are not immutable. Assigning
`confidence_percentage` on a constructed `BotResponse` (pydantic's
default, `frozen=True` is never set) yields a changed instance — even an
out-of-range value 200 is accepted, since assignment is not validated.
The same holds for `MCPBotResponse`. -/
theorem structured_response_mutable_cex :
    (setConfidencePercentage ⟨"a", "r", none, 50⟩ 200).confidence_percentage = 200 ∧
    (⟨"a", "r", none, 50⟩ : BotResponse).confidence_percentage = 50 ∧
    setConfidencePercentage ⟨"a", "r", none, 50⟩ 200 ≠ ⟨"a", "r", none, 50⟩ ∧
    (setMCPConfidencePercentage ⟨"a", "r", [], 50⟩ 7).confidence_percentage = 7 := by
  refine ⟨rfl, rfl, ?_, rfl⟩
  decide

/-- C4 amended: `BotResponse` and `MCPBotResponse` instances are mutable
after construction — field assignment succeeds and sets the assigned
value (without re-validation), leaving the other fields unchanged;
immutability is not enforced. -/
theorem structured_response_assignment (r : BotResponse) (v : Int)
    (m : MCPBotResponse) (w : Int) :
    (setConfidencePercentage r v).confidence_percentage = v ∧
    (setConfidencePercentage r v).answer = r.answer ∧
    (setConfidencePercentage r v).reasoning = r.reasoning ∧
    (setConfidencePercentage r v).reference = r.reference ∧
    (setMCPConfidencePercentage m w).confidence_percentage = w := by
  simp [setConfidencePercentage, setMCPConfidencePercentage]

/-- C6: `divide 10 2` returns 5.0, and `divide 1 0` raises
`ZeroDivisionError` (division by zero is not guarded) rather than
returning a value. -/
theorem divide_endpoint_behavior :
    divide 10 2 = .ok 5 ∧ divide 1 0 = .error .zeroDivisionError := by
  constructor
  · unfold divide
    rw [if_neg (by norm_num)]
    norm_num
  · rfl

/-- The loop `a, b = 0, 1; repeat k times: a, b = b, a + b` computes the
pair of consecutive Fibonacci numbers `(F k, F (k+1))`. -/
theorem fibStep_iterate (k : Nat) :
    (fibStep^[k]) (0, 1) = (Nat.fib k, Nat.fib (k + 1)) := by
  induction k with
  | zero => rfl
  | succ n ih =>
    rw [Function.iterate_succ_apply', ih]
    simp [fibStep, Nat.fib_add_two]

/-- C9: for every integer `n ≥ 0` the fibonacci endpoint returns the
n-th Fibonacci number of the sequence F(0)=0, F(1)=1,
F(n)=F(n-1)+F(n-2): the `n ≤ 1` branch returns `n` itself, and the
iterative loop yields `b = F(n)` for `n ≥ 2`. -/
theorem fibonacci_returns_fib (n : Int) (h : 0 ≤ n) :
    fibonacci n = .ok (Nat.fib n.toNat) := by
  unfold fibonacci
  rw [if_neg (by omega)]
  by_cases h1 : n ≤ 1
  · rw [if_pos h1]
    have h01 : n = 0 ∨ n = 1 := by omega
    rcases h01 with rfl | rfl
    · rfl
    · rfl
  · rw [if_neg h1]
    have h2 : (n + 1 - 2).toNat = n.toNat - 1 := by omega
    have h3 : n.toNat - 1 + 1 = n.toNat := by omega
    rw [h2, fibStep_iterate, h3]

/-- C9 witness: at n = 10 the endpoint returns F(10). -/
theorem fibonacci_returns_fib_witness :
    fibonacci 10 = .ok (Nat.fib (Int.toNat 10)) :=
  fibonacci_returns_fib 10 (by decide)

/-- C5: every negative input to the fibonacci endpoint yields a 400
error with detail exactly "Input must be a non-negative integer", and
the endpoint returns 0 at n=0, 1 at n=1 and 55 at n=10. -/
theorem fibonacci_endpoint_values :
    (∀ n : Int, n < 0 →
       fibonacci n = .httpError 400 "Input must be a non-negative integer") ∧
    fibonacci 0 = .ok 0 ∧ fibonacci 1 = .ok 1 ∧ fibonacci 10 = .ok 55 := by
  refine ⟨fun n hn => ?_, by decide, by decide, by decide⟩
  unfold fibonacci
  rw [if_pos hn]

/-- C5 witness: the error branch at the concrete input n = -3. -/
theorem fibonacci_endpoint_values_witness :
    fibonacci (-3) = .httpError 400 "Input must be a non-negative integer" :=
  fibonacci_endpoint_values.1 (-3) (by decide)

/-- C2 counterexample: with `TAVILY_API_KEY` absent from the
environment, importing/starting the app succeeds — indeed startup
computes the very same state as with the key present, since nothing run
at startup reads it — and the `/agent/query` request then fails per call
with the `AssertionError` raised inside `build_agent` when FastAPI
resolves the `get_agent` dependency. The missing credential is surfaced
as a per-call error, not as a fatal startup error, refuting both halves
of the claim. -/
theorem missing_key_not_startup_cex :
    app_startup ⟨none, none⟩ = .ok ⟨"sqlite:///./test.db"⟩ ∧
    app_startup ⟨none, none⟩ = app_startup ⟨some "tvly-dev-key", none⟩ ∧
    handle_agent_query ⟨none, none⟩ "How do I create an agent?"
        (.ok ⟨"a", "r", none, 90⟩) = .error .assertionError := by
  refine ⟨rfl, rfl, rfl⟩

/-- C2 amended: `TAVILY_API_KEY` is never consulted at startup — startup
always succeeds, its result is identical whether or not the key is set,
and the key is not among the environment variables read at import time.
Instead the credential check is per call: when the key is absent, every
request to the agent query operation fails with the `AssertionError`
raised by `build_agent` while FastAPI resolves the `get_agent`
dependency, regardless of the question and of what the LLM call would
have returned; when the key is present, the request hands back the LLM
outcome. -/
theorem missing_key_fails_per_call (env : Env) :
    (∃ st, app_startup env = .ok st) ∧
    (∀ k, app_startup { env with tavily_api_key := some k } = app_startup env) ∧
    "TAVILY_API_KEY" ∉ startup_env_reads ∧
    (env.tavily_api_key = none →
       ∀ q runOutcome, handle_agent_query env q runOutcome = .error .assertionError) ∧
    (∀ k, env.tavily_api_key = some k →
       ∀ q runOutcome, handle_agent_query env q runOutcome = runOutcome) := by
  refine ⟨⟨_, rfl⟩, fun k => rfl, by decide, ?_, ?_⟩
  · intro h q runOutcome
    unfold handle_agent_query get_agent build_agent
    rw [h]
  · intro k h q runOutcome
    unfold handle_agent_query get_agent build_agent answer_question
    rw [h]
    cases runOutcome <;> rfl

/-- C2 witness: the amended behaviour at concrete environments — keyless
startup succeeds, a concrete keyless query fails with the assertion
error, and the same query with a key present returns the LLM outcome. -/
theorem missing_key_fails_per_call_witness :
    (∃ st, app_startup ⟨none, some "sqlite:///./prod.db"⟩ = .ok st) ∧
    handle_agent_query ⟨none, some "sqlite:///./prod.db"⟩ "How do I add tools?"
        (.ok ⟨"use @agent.tool", "docs", none, 80⟩) = .error .assertionError ∧
    handle_agent_query ⟨some "tvly-key", some "sqlite:///./prod.db"⟩ "How do I add tools?"
        (.ok ⟨"use @agent.tool", "docs", none, 80⟩) =
      .ok ⟨"use @agent.tool", "docs", none, 80⟩ :=
  ⟨(missing_key_fails_per_call ⟨none, some "sqlite:///./prod.db"⟩).1,
   (missing_key_fails_per_call ⟨none, some "sqlite:///./prod.db"⟩).2.2.2.1 rfl
     "How do I add tools?" (.ok ⟨"use @agent.tool", "docs", none, 80⟩),
   (missing_key_fails_per_call ⟨some "tvly-key", some "sqlite:///./prod.db"⟩).2.2.2.2
     "tvly-key" rfl "How do I add tools?" (.ok ⟨"use @agent.tool", "docs", none, 80⟩)⟩

/-- C3 counterexample: two consecutive queries against the single
module-level MCP agent each enter `run_mcp_servers`, so the Playwright
subprocess is started twice for one Agent Runtime instance — it is
started once per query, not at most once per runtime instance. -/
theorem browser_started_per_query_cex :
    ((answer_mcp_question (.ok ⟨"a1", "r1", [], 80⟩)
        ((answer_mcp_question (.ok ⟨"a0", "r0", [], 80⟩) initialMCPState).2)).2).startCount
      = 2 ∧
    ¬ (((answer_mcp_question (.ok ⟨"a1", "r1", [], 80⟩)
        ((answer_mcp_question (.ok ⟨"a0", "r0", [], 80⟩) initialMCPState).2)).2).startCount ≤ 1) := by
  constructor
  · rfl
  · decide

/-- C3 amended: each call of `answer_mcp_question` starts the browser
subprocess exactly once on entering the scoped `run_mcp_servers` block,
and the subprocess is terminated when the block exits — also when the
query inside it fails with an error — so after every call (successful or
failed) the subprocess is not running and has been stopped exactly once
more; the query outcome is passed through unchanged. -/
theorem browser_scoped_lifecycle (runOutcome : Except PyError MCPBotResponse)
    (s : MCPState) :
    ((answer_mcp_question runOutcome s).2).serverRunning = false ∧
    ((answer_mcp_question runOutcome s).2).startCount = s.startCount + 1 ∧
    ((answer_mcp_question runOutcome s).2).stopCount = s.stopCount + 1 ∧
    (answer_mcp_question runOutcome s).1 = runOutcome := by
  cases runOutcome <;>
    simp [answer_mcp_question, startServers, stopServers]

/-- Every element of a list of naturals is bounded by `foldr max 0`. -/
theorem le_foldr_max {l : List Nat} {a : Nat} (h : a ∈ l) :
    a ≤ l.foldr max 0 := by
  induction l with
  | nil => cases h
  | cons b t ih =>
    rcases List.mem_cons.mp h with rfl | hmem
    · exact le_max_left _ _
    · exact le_trans (ih hmem) (le_max_right _ _)

/-- The id assigned by `create_item` is fresh: no row already in the
table carries it. -/
theorem nextItemId_fresh (db : ItemsDB) :
    ∀ x ∈ db, x.id ≠ nextItemId db := by
  intro x hx
  have hle : x.id ≤ (db.map Item.id).foldr max 0 :=
    le_foldr_max (List.mem_map_of_mem Item.id hx)
  unfold nextItemId
  omega

/-- C7: item CRUD round trip and pagination.
(1) Creating an item and then reading it back by the id assigned at
creation returns exactly the stored record, whose `name` and
`description` are those of the payload.
(2) Reading an id held by no row yields the 404 error.
(3) Listing with `skip`/`limit` returns at most `limit` items, and its
i-th element is the (skip+i)-th element of the table — the first `skip`
items are skipped. -/
theorem item_crud_roundtrip_pagination :
    (∀ (db : ItemsDB) (p : ItemCreate),
       read_item (create_item db p).2 (create_item db p).1.id =
           .ok (create_item db p).1 ∧
         (create_item db p).1.name = p.name ∧
         (create_item db p).1.description = p.description) ∧
    (∀ (db : ItemsDB) (item_id : Nat), (∀ x ∈ db, x.id ≠ item_id) →
       read_item db item_id = .httpError 404 "Item not") ∧
    (∀ (db : ItemsDB) (skip limit : Nat),
       (read_items db skip limit).length ≤ limit ∧
       ∀ (i : Nat) (h1 : i < (read_items db skip limit).length)
           (h2 : skip + i < db.length),
         (read_items db skip limit).get ⟨i, h1⟩ = db.get ⟨skip + i, h2⟩) := by
  have h404 : ∀ (db : ItemsDB) (item_id : Nat), (∀ x ∈ db, x.id ≠ item_id) →
      read_item db item_id = .httpError 404 "Item not" := by
    intro db item_id hid
    unfold read_item
    have hnone : db.find? (fun it => it.id == item_id) = none := by
      rw [List.find?_eq_none]
      intro x hx
      simpa using hid x hx
    rw [hnone]
  refine ⟨?_, h404, ?_⟩
  · intro db p
    refine ⟨?_, rfl, rfl⟩
    unfold read_item create_item
    have hnone : db.find? (fun it => it.id == nextItemId db) = none := by
      rw [List.find?_eq_none]
      intro x hx
      simpa using nextItemId_fresh db x hx
    rw [List.find?_append, hnone]
    simp [List.find?]
  · intro db skip limit
    constructor
    · unfold read_items
      exact List.length_take_le _ _
    · intro i h1 h2
      unfold read_items at h1 ⊢
      simp [List.get_eq_getElem, List.getElem_take, List.getElem_drop]

/-- C7 witness: on a concrete two-row table — create-then-read returns
the payload, a missing id yields the 404, and listing with skip 1,
limit 1 returns at most one item, namely the second row. -/
theorem item_crud_roundtrip_pagination_witness :
    (read_item (create_item [⟨1, "a", "da"⟩] ⟨"n", "dn"⟩).2
         (create_item [⟨1, "a", "da"⟩] ⟨"n", "dn"⟩).1.id =
       .ok (create_item [⟨1, "a", "da"⟩] ⟨"n", "dn"⟩).1) ∧
    read_item [⟨1, "a", "da"⟩, ⟨2, "b", "db"⟩] 7 = .httpError 404 "Item not" ∧
    (read_items [⟨1, "a", "da"⟩, ⟨2, "b", "db"⟩] 1 1).length ≤ 1 ∧
    (read_items [⟨1, "a", "da"⟩, ⟨2, "b", "db"⟩] 1 1).get ⟨0, by decide⟩ =
      ([⟨1, "a", "da"⟩, ⟨2, "b", "db"⟩] : ItemsDB).get ⟨1, by decide⟩ :=
  ⟨(item_crud_roundtrip_pagination.1 [⟨1, "a", "da"⟩] ⟨"n", "dn"⟩).1,
   item_crud_roundtrip_pagination.2.1 [⟨1, "a", "da"⟩, ⟨2, "b", "db"⟩] 7 (by decide),
   (item_crud_roundtrip_pagination.2.2 [⟨1, "a", "da"⟩, ⟨2, "b", "db"⟩] 1 1).1,
   (item_crud_roundtrip_pagination.2.2 [⟨1, "a", "da"⟩, ⟨2, "b", "db"⟩] 1 1).2
     0 (by decide) (by decide)⟩

/-- `charsStart` decides "the second list starts with the first". -/
theorem charsStart_iff (n : List Char) : ∀ h : List Char,
    charsStart n h = true ↔ ∃ r, h = n ++ r := by
  induction n with
  | nil =>
    intro h
    simp [charsStart]
  | cons c cs ih =>
    intro h
    cases h with
    | nil => simp [charsStart]
    | cons d hs =>
      simp only [charsStart, Bool.and_eq_true, beq_iff_eq, ih, List.cons_append,
        List.cons.injEq]
      constructor
      · rintro ⟨rfl, r, rfl⟩
        exact ⟨r, rfl, rfl⟩
      · rintro ⟨r, rfl, rfl⟩
        exact ⟨rfl, r, rfl⟩

/-- `charsContain` decides "the first list occurs contiguously inside
the second". -/
theorem charsContain_iff (n : List Char) : ∀ h : List Char,
    charsContain n h = true ↔ ∃ l r, h = l ++ n ++ r := by
  intro h
  induction h with
  | nil =>
    simp only [charsContain, List.isEmpty_iff]
    constructor
    · rintro rfl
      exact ⟨[], [], rfl⟩
    · rintro ⟨l, r, hr⟩
      rcases List.append_eq_nil.mp hr.symm with ⟨hln, hrn⟩
      exact (List.append_eq_nil.mp hln).2
  | cons d hs ih =>
    simp only [charsContain, Bool.or_eq_true, ih, charsStart_iff]
    constructor
    · rintro (⟨r, hr⟩ | ⟨l, r, rfl⟩)
      · exact ⟨[], r, by simpa using hr⟩
      · exact ⟨d :: l, r, rfl⟩
    · rintro ⟨l, r, hd⟩
      cases l with
      | nil =>
        exact Or.inl ⟨r, by simpa using hd⟩
      | cons x xs =>
        simp only [List.cons_append, List.cons.injEq] at hd
        exact Or.inr ⟨xs, r, hd.2⟩

/-- Specification-level reading of Python's substring test
`needle in hay`: the characters of `needle` occur contiguously inside
the characters of `hay`. -/
def OccursIn (needle hay : String) : Prop :=
  ∃ l r, hay.data = l ++ needle.data ++ r

/-- The embedded `strContains` agrees with the specification-level
`OccursIn`. -/
theorem strContains_iff (hay needle : String) :
    strContains hay needle = true ↔ OccursIn needle hay :=
  charsContain_iff needle.data hay.data

instance (needle hay : String) : Decidable (OccursIn needle hay) :=
  decidable_of_iff (strContains hay needle = true) (strContains_iff hay needle)

/-- `decide OccursIn` computes exactly the embedded substring test. -/
theorem decide_occursIn_eq (hay needle : String) :
    decide (OccursIn needle hay) = strContains hay needle := by
  by_cases h : OccursIn needle hay
  · rw [decide_eq_true h, (strContains_iff hay needle).mpr h]
  · rw [decide_eq_false h]
    have hne : strContains hay needle ≠ true :=
      fun hc => h ((strContains_iff hay needle).mp hc)
    exact (Bool.not_eq_true _).mp hne |>.symm

/-- Equation for `KeywordPresenceEvaluator.evaluate` when the context
carries no metadata. -/
theorem keywordEvaluate_none (ctx : EvaluatorContext)
    (h : ctx.metadata = none) :
    KeywordPresenceEvaluator.evaluate ctx = 0 := by
  unfold KeywordPresenceEvaluator.evaluate
  rw [h]

/-- Equation for `KeywordPresenceEvaluator.evaluate` when the context
carries a metadata dict. -/
theorem keywordEvaluate_some (ctx : EvaluatorContext) (d : MetaDict)
    (h : ctx.metadata = some d) :
    KeywordPresenceEvaluator.evaluate ctx =
      if d.isEmpty then 0
      else if (metaGetKeywords d).isEmpty then 1
      else
        (((metaGetKeywords d).filter
            (fun kw => strContains (strLower ctx.output.answer) (strLower kw))).length : ℚ) /
          ((metaGetKeywords d).length : ℚ) := by
  unfold KeywordPresenceEvaluator.evaluate
  rw [h]

/-- C8: on a context whose output is a schema-valid `BotResponse`
(`confidence_percentage` in [0,100]), both non-delegated evaluators,
`ConfidenceEvaluator` and `KeywordPresenceEvaluator`, return a score in
the closed interval [0,1], for every threshold and every metadata. -/
theorem evaluator_scores_bounded (min_confidence : Int)
    (ctx : EvaluatorContext)
    (h0 : 0 ≤ ctx.output.confidence_percentage)
    (h1 : ctx.output.confidence_percentage ≤ 100) :
    (0 ≤ ConfidenceEvaluator.evaluate min_confidence ctx ∧
       ConfidenceEvaluator.evaluate min_confidence ctx ≤ 1) ∧
    (0 ≤ KeywordPresenceEvaluator.evaluate ctx ∧
       KeywordPresenceEvaluator.evaluate ctx ≤ 1) := by
  constructor
  · unfold ConfidenceEvaluator.evaluate
    split_ifs with hc
    · norm_num
    · constructor
      · apply div_nonneg
        · exact_mod_cast h0
        · norm_num
      · rw [div_le_one (by norm_num)]
        exact_mod_cast h1
  · rcases hmeta : ctx.metadata with _ | d
    · rw [keywordEvaluate_none ctx hmeta]
      norm_num
    · rw [keywordEvaluate_some ctx d hmeta]
      split_ifs with hemp hkw
      · norm_num
      · norm_num
      · have hlen : 0 < (metaGetKeywords d).length :=
          List.length_pos.mpr (by simpa [List.isEmpty_iff] using hkw)
        constructor
        · apply div_nonneg
          · exact_mod_cast Nat.zero_le _
          · exact_mod_cast Nat.zero_le _
        · rw [div_le_one (by exact_mod_cast hlen)]
          exact_mod_cast List.length_filter_le _ _

/-- A concrete evaluation context exercising both evaluators: valid
output at confidence 50, metadata with two expected keywords of which
exactly one occurs (case-insensitively) in the answer. -/
def sampleCtx : EvaluatorContext :=
  ⟨⟨"How do I create a basic PydanticAI agent?"⟩,
   ⟨"Use the Agent class from pydantic_ai.", "reasoning", none, 50⟩,
   some [("difficulty", .str "easy"),
         ("expected_keywords", .strList ["Agent", "decorator"])]⟩

/-- C8 witness: the score bounds at the concrete context `sampleCtx`
with threshold 70. -/
theorem evaluator_scores_bounded_witness :
    (0 ≤ ConfidenceEvaluator.evaluate 70 sampleCtx ∧
       ConfidenceEvaluator.evaluate 70 sampleCtx ≤ 1) ∧
    (0 ≤ KeywordPresenceEvaluator.evaluate sampleCtx ∧
       KeywordPresenceEvaluator.evaluate sampleCtx ≤ 1) :=
  evaluator_scores_bounded 70 sampleCtx (by decide) (by decide)

/-- C10: edge behaviour of `KeywordPresenceEvaluator`. With no metadata
(`None`, or the falsy empty dict) the score is 0; with metadata present
(a non-empty dict) whose expected keyword list is empty or missing the
score is the perfect 1; for a non-empty keyword list the score is the
fraction of keywords that occur in the answer under case-insensitive
substring matching (stated via the specification-level `OccursIn`). -/
theorem keyword_evaluator_edge_cases (ctx : EvaluatorContext) :
    (ctx.metadata = none → KeywordPresenceEvaluator.evaluate ctx = 0) ∧
    (∀ d, ctx.metadata = some d → d = [] →
       KeywordPresenceEvaluator.evaluate ctx = 0) ∧
    (∀ d, ctx.metadata = some d → d ≠ [] → metaGetKeywords d = [] →
       KeywordPresenceEvaluator.evaluate ctx = 1) ∧
    (∀ d, ctx.metadata = some d → d ≠ [] → metaGetKeywords d ≠ [] →
       KeywordPresenceEvaluator.evaluate ctx =
         ((metaGetKeywords d).countP
             (fun kw => decide (OccursIn (strLower kw) (strLower ctx.output.answer))) : ℚ) /
           ((metaGetKeywords d).length : ℚ)) := by
  refine ⟨fun h => keywordEvaluate_none ctx h, ?_, ?_, ?_⟩
  · intro d hd hde
    rw [keywordEvaluate_some ctx d hd, if_pos (by simp [hde])]
  · intro d hd hde hke
    rw [keywordEvaluate_some ctx d hd,
      if_neg (by simpa [List.isEmpty_iff] using hde),
      if_pos (by simp [hke])]
  · intro d hd hde hke
    rw [keywordEvaluate_some ctx d hd,
      if_neg (by simpa [List.isEmpty_iff] using hde),
      if_neg (by simpa [List.isEmpty_iff] using hke)]
    congr 1
    have hpt : ∀ kw ∈ metaGetKeywords d,
        decide (OccursIn (strLower kw) (strLower ctx.output.answer)) =
          strContains (strLower ctx.output.answer) (strLower kw) := by
      intro kw _
      exact decide_occursIn_eq (strLower ctx.output.answer) (strLower kw)
    rw [List.countP_eq_length_filter, List.filter_congr hpt]

/-- The metadata dict of the C10 witness context: two expected keywords,
of which exactly one occurs in the answer. -/
def sampleDict10 : MetaDict :=
  [("expected_keywords", .strList ["Agent", "zzzq"])]

/-- The C10 witness context. -/
def sampleCtx10 : EvaluatorContext :=
  ⟨⟨"q"⟩, ⟨"Use the Agent class.", "r", none, 90⟩, some sampleDict10⟩

/-- C10 witness: the fraction case at the concrete context
`sampleCtx10`. -/
theorem keyword_evaluator_edge_cases_witness :
    KeywordPresenceEvaluator.evaluate sampleCtx10 =
      ((metaGetKeywords sampleDict10).countP
          (fun kw => decide (OccursIn (strLower kw) (strLower sampleCtx10.output.answer))) : ℚ) /
        ((metaGetKeywords sampleDict10).length : ℚ) :=
  (keyword_evaluator_edge_cases sampleCtx10).2.2.2 sampleDict10 rfl
    (by decide) (by decide)
